import Mathlib

/-!
Shallow embedding of `src/simulatore.py` (SmartFarm Italia data generator).

The generator `genera_dati` is a per-plot, per-day stochastic recurrence.
We model NumPy's `default_rng(seed)` as a pair of fixed rational-valued
streams (one backing `rng.random()` / `rng.uniform(a,b)` draws, one backing
`rng.normal(mu,sigma)` draws) together with a pair of cursors that advance
as draws are consumed, exactly in the order the Python code consumes them.
Transcendental pieces (`np.sin`, `timetuple().tm_yday`) are abstracted as an
environment parameter: none of the verified properties depend on their
values.  Floats are modelled as exact rationals; `round(x, 3)` is modelled
as round-half-to-even at 3 decimals, as Python/NumPy rounding behaves on
exactly representable values.
-/

namespace SmartFarm

/-- Fixed random source behind `np.random.default_rng(seed)`: `unit` backs
`rng.random()` and `rng.uniform` draws (values in `[0,1)`), `gauss` backs
`rng.normal` standard-normal draws (unbounded). -/
structure Streams where
  unit : ℕ → ℚ
  gauss : ℕ → ℚ

/-- Cursor into the two streams: next unit-draw index and next gauss-draw index. -/
structure Ctr where
  u : ℕ
  g : ℕ
deriving DecidableEq, Repr

/-- Model of `rng.random()`. -/
def casuale (S : Streams) (c : Ctr) : ℚ × Ctr :=
  (S.unit c.u, ⟨c.u + 1, c.g⟩)

/-- Model of `rng.uniform(a, b)` = `a + (b - a) * random()`. -/
def uniforme (S : Streams) (a b : ℚ) (c : Ctr) : ℚ × Ctr :=
  (a + (b - a) * S.unit c.u, ⟨c.u + 1, c.g⟩)

/-- Model of `rng.normal(mu, sigma)` = `mu + sigma * Z`. -/
def normale (S : Streams) (mu sigma : ℚ) (c : Ctr) : ℚ × Ctr :=
  (mu + sigma * S.gauss c.g, ⟨c.u, c.g + 1⟩)

/-- The unit stream is well formed when every value lies in `[0, 1)`,
as NumPy's `random()` guarantees. -/
def Streams.WF (S : Streams) : Prop :=
  ∀ n, 0 ≤ S.unit n ∧ S.unit n < 1

/-- Abstraction of the transcendental/calendar helpers used by the code:
`sinPi x` models `np.sin(np.pi * x)` and `dayOfYear d` models
`data.timetuple().tm_yday` for the day number `d`. -/
structure Env where
  sinPi : ℚ → ℚ
  dayOfYear : ℕ → ℕ

/-- Mirrors the dataclass `Appezzamento` of `simulatore.py`. -/
structure Appezzamento where
  id_appezzamento : String
  coltura : String
  superficie_ha : ℚ
  zona_climatica : String
deriving DecidableEq, Repr, Inhabited

/-- Mirrors `get_appezzamenti_default()`. -/
def get_appezzamenti_default : List Appezzamento :=
  [⟨ "A1", "Grano", 25/2, "pianura"⟩,
   ⟨ "A2", "Mais", 8, "collina"⟩,
   ⟨ "A3", "Ortaggi", 26/5, "pianura"⟩]

/-- One generated row, with the column names of the returned DataFrame. -/
structure Record where
  data : ℕ
  id_appezzamento : String
  coltura : String
  superficie_ha : ℚ
  temperatura_c : ℚ
  umidita_suolo_pct : ℚ
  precipitazioni_mm : ℚ
  nutrienti_n : ℚ
  nutrienti_p : ℚ
  nutrienti_k : ℚ
  stadio_crescita : ℚ
  resa_kg_ha : ℚ
  resa_totale_kg : ℚ
  costo_totale_eur : ℚ
  ricavi_totali_eur : ℚ
  margine_eur : ℚ
deriving DecidableEq, Repr, Inhabited

/-- Model of `np.clip(x, lo, hi)`. -/
def clip (lo hi x : ℚ) : ℚ := min hi (max lo x)

/-- ASCII lower-casing of a character, modelling `str.lower()` on the crop names. -/
def minuscola (ch : Char) : Char :=
  if 65 ≤ ch.toNat ∧ ch.toNat ≤ 90 then Char.ofNat (ch.toNat + 32) else ch

/-- Model of `s.lower() == t` for an already-lowercase literal `t`. -/
def lowerEq (s t : String) : Bool :=
  s.data.map minuscola == t.data

/-- Lines 141-144: the rain gate (`rng.random() < 0.3`) and the rainfall
amount `max(0, rng.normal(10, 8))`. -/
def simulaPrecipitazioni (S : Streams) (c : Ctr) : ℚ × Ctr :=
  let g := casuale S c
  if g.1 < 3/10 then
    let x := normale S 10 8 g.2
    (max 0 x.1, x.2)
  else (0, g.2)

/-- Lines 152-156: soil-moisture recurrence for day index `> 0`:
previous value minus a uniform decay draw, plus - only when rain fell -
a recharge term `min(20, precip * uniform(0.3, 0.6))`, clipped to `[10, 90]`. -/
def aggiornaUmidita (S : Streams) (prevU precip : ℚ) (c : Ctr) : ℚ × Ctr :=
  let dec := uniforme S (1/10) (4/5) c
  if 0 < precip then
    let rec_ := uniforme S (3/10) (3/5) dec.2
    (clip 10 90 (prevU + (-dec.1 + min 20 (precip * rec_.1))), rec_.2)
  else
    (clip 10 90 (prevU + -dec.1), dec.2)

/-- Lines 158-165: nutrient depletion floored at 5, plus the probability-0.03
replenishment event adding a uniform bonus to each nutrient. -/
def aggiornaNutrienti (S : Streams) (prevN prevP prevK : ℚ) (c : Ctr) :
    (ℚ × ℚ × ℚ) × Ctr :=
  let dn := uniforme S (1/20) (3/10) c
  let n := max 5 (prevN - dn.1)
  let dp := uniforme S (1/50) (3/20) dn.2
  let p := max 5 (prevP - dp.1)
  let dk := uniforme S (1/20) (1/4) dp.2
  let k := max 5 (prevK - dk.1)
  let g := casuale S dk.2
  if g.1 < 3/100 then
    let bn := uniforme S 10 25 g.2
    let bp := uniforme S 5 15 bn.2
    let bk := uniforme S 8 20 bp.2
    ((n + bn.1, p + bp.1, k + bk.1), bk.2)
  else ((n, p, k), g.2)

/-- Environmental block of one plot-day (lines 137-165): temperature,
precipitation, soil moisture and nutrients, in draw order. -/
structure Ambiente where
  temperatura : ℚ
  precipitazioni : ℚ
  umidita : ℚ
  n : ℚ
  p : ℚ
  k : ℚ
deriving DecidableEq, Repr

/-- Lines 137-165: the environmental simulation of one plot-day.  `prev` is
`none` on day index 0 (fresh initial draws) and the previous record of the
same plot otherwise. -/
def simulaAmbiente (S : Streams) (env : Env) (d : ℕ) (prev : Option Record)
    (c : Ctr) : Ambiente × Ctr :=
  let tn := normale S 0 2 c
  let temperatura := 35/2 + 25/2 * env.sinPi (2 * ((env.dayOfYear d : ℚ) - 80) / 365) + tn.1
  let pr := simulaPrecipitazioni S tn.2
  match prev with
  | none =>
    let u0 := uniforme S 30 60 pr.2
    let n0 := uniforme S 40 80 u0.2
    let p0 := uniforme S 20 50 n0.2
    let k0 := uniforme S 30 70 p0.2
    (⟨temperatura, pr.1, u0.1, n0.1, p0.1, k0.1⟩, k0.2)
  | some r =>
    let um := aggiornaUmidita S r.umidita_suolo_pct pr.1 pr.2
    let nu := aggiornaNutrienti S r.nutrienti_n r.nutrienti_p r.nutrienti_k um.2
    (⟨temperatura, pr.1, um.1, nu.1.1, nu.1.2.1, nu.1.2.2⟩, nu.2)

/-- Lines 171-174: growth-stage baseline, bell curve for wheat/corn and a
steady ramp otherwise (crop name compared case-insensitively). -/
def stadioBase (coltura : String) (env : Env) (progress : ℚ) : ℚ :=
  if lowerEq coltura "grano" || lowerEq coltura "mais" then
    clip 0 1 (env.sinPi progress)
  else
    clip 0 1 (3/10 + 7/10 * progress)

/-- Lines 180-184: moisture penalty on yield. -/
def penalitaUmidita (umid : ℚ) : ℚ :=
  if umid < 25 ∨ 80 < umid then 3/10
  else if umid < 35 ∨ 70 < umid then 3/20
  else 0

/-- Lines 186-191: nutrient penalty on yield, from the mean of N, P, K. -/
def penalitaNutrienti (media : ℚ) : ℚ :=
  if media < 20 then 2/5
  else if media < 35 then 1/5
  else 0

/-- Lines 178-199: yield per hectare from growth stage, moisture, nutrients
and the Gaussian noise draw. -/
def calcolaResaKgHa (stadio umid n p k noise : ℚ) : ℚ :=
  let fatt := max (1/10) (1 - (penalitaUmidita umid + penalitaNutrienti ((n + p + k) / 3)))
  max 0 (stadio * 80 * fatt + noise)

/-- Lines 211-216: crop-specific price per kg. -/
def prezzoKg (coltura : String) : ℚ :=
  if lowerEq coltura "grano" then 1/4
  else if lowerEq coltura "mais" then 11/50
  else 4/5

/-- One plot-day (lines 130-239): environmental block, growth stage, yield,
costs, revenue and margin, consuming random draws in source order. -/
def simulaGiorno (S : Streams) (env : Env) (a : Appezzamento) (gt : ℕ) (i : ℕ)
    (d : ℕ) (prev : Option Record) (c : Ctr) : Record × Ctr :=
  let progress : ℚ := (i : ℚ) / ((max (gt - 1) 1 : ℕ) : ℚ)
  let amb := simulaAmbiente S env d prev c
  let sn := normale S 0 (1/20) amb.2
  let stadio := clip 0 1 (stadioBase a.coltura env progress + sn.1)
  let yn := normale S 0 3 sn.2
  let resa := calcolaResaKgHa stadio amb.1.umidita amb.1.n amb.1.p amb.1.k yn.1
  let resaTot := resa * a.superficie_ha
  let cm := normale S 0 3 yn.2
  let ci := normale S 0 2 cm.2
  let costo := max 0 ((25 + cm.1) + (10 + ci.1))
  let ricavi := max 0 (resaTot * prezzoKg a.coltura)
  (⟨d, a.id_appezzamento, a.coltura, a.superficie_ha, amb.1.temperatura,
    amb.1.umidita, amb.1.precipitazioni, amb.1.n, amb.1.p, amb.1.k, stadio,
    resa, resaTot, costo, ricavi, ricavi - costo⟩, ci.2)

/-- The inner day loop for one plot: iterates over the date index carrying
the previous record of the same plot (`records[-1]` in the source). -/
def simulaGiorni (S : Streams) (env : Env) (a : Appezzamento) (gt : ℕ) :
    List ℕ → ℕ → Option Record → Ctr → List Record × Ctr
  | [], _, _, c => ([], c)
  | d :: ds, i, prev, c =>
    let rc := simulaGiorno S env a gt i d prev c
    let rest := simulaGiorni S env a gt ds (i + 1) (some rc.1) rc.2
    (rc.1 :: rest.1, rest.2)

/-- The outer plot loop (line 129): plots processed in list order, all
consuming the one shared random stream. -/
def simulaAppezzamenti (S : Streams) (env : Env) (dateIdx : List ℕ) (gt : ℕ) :
    List Appezzamento → Ctr → List Record × Ctr
  | [], c => ([], c)
  | a :: as, c =>
    let rs := simulaGiorni S env a gt dateIdx 0 none c
    let rest := simulaAppezzamenti S env dateIdx gt as rs.2
    (rs.1 ++ rest.1, rest.2)

/-- Sort key of `df.sort_values(["data", "id_appezzamento"])`. -/
def recLE (a b : Record) : Bool :=
  decide (a.data < b.data ∨ (a.data = b.data ∧ a.id_appezzamento ≤ b.id_appezzamento))

/-- Insertion into a sorted list (model of the DataFrame sort). -/
def inserisci (r : Record) : List Record → List Record
  | [] => [r]
  | x :: xs => if recLE r x then r :: x :: xs else x :: inserisci r xs

/-- Stable sort by `(data, id_appezzamento)`, modelling `df.sort_values`. -/
def ordina : List Record → List Record
  | [] => []
  | x :: xs => inserisci x (ordina xs)

/-- Round half to even on rationals (Python/NumPy rounding of exactly
representable values). -/
def rhe (x : ℚ) : ℤ :=
  let n := ⌊x⌋
  let f := x - n
  if f < 1/2 then n
  else if 1/2 < f then n + 1
  else if Even n then n else n + 1

/-- Model of `round(x, 3)` (line 247). -/
def round3 (x : ℚ) : ℚ := (rhe (x * 1000) : ℚ) / 1000

/-- Line 246-247: rounding of every numeric column to 3 decimals. -/
def Record.arrotonda (r : Record) : Record :=
  { r with
    superficie_ha := round3 r.superficie_ha
    temperatura_c := round3 r.temperatura_c
    umidita_suolo_pct := round3 r.umidita_suolo_pct
    precipitazioni_mm := round3 r.precipitazioni_mm
    nutrienti_n := round3 r.nutrienti_n
    nutrienti_p := round3 r.nutrienti_p
    nutrienti_k := round3 r.nutrienti_k
    stadio_crescita := round3 r.stadio_crescita
    resa_kg_ha := round3 r.resa_kg_ha
    resa_totale_kg := round3 r.resa_totale_kg
    costo_totale_eur := round3 r.costo_totale_eur
    ricavi_totali_eur := round3 r.ricavi_totali_eur
    margine_eur := round3 r.margine_eur }

/-- The distinguishable failure modes of `genera_dati`: the IndexError of
`date_index[-1]` on an empty range (line 127), the KeyError of
`sort_values` on the empty frame produced by an empty plot list (line 242),
and an exception escaping the CSV export block (lines 249-255). -/
inductive SimError where
  | invalidRange
  | invalidConfig
  | ioError
deriving DecidableEq, Repr

/-- Model of `pd.date_range(start, end, freq="D")` over day numbers. -/
def dateRange (s e : ℕ) : List ℕ := List.range' s (e + 1 - s)

/-- Model of `genera_dati` (lines 65-258).  Dates are day numbers; `S` is
the seed-determined random source; `esportaOk` states whether the optional
CSV export side effect would succeed (directory creation and file write).
A Python exception is modelled as an `Except.error`. -/
def genera_dati (S : Streams) (env : Env) (data_inizio data_fine : ℕ)
    (appezzamenti : Option (List Appezzamento)) (salva_csv : Bool)
    (esportaOk : Bool) : Except SimError (List Record) :=
  let dateIdx := dateRange data_inizio data_fine
  let appz := appezzamenti.getD get_appezzamenti_default
  if dateIdx.isEmpty then .error .invalidRange
  else
    let gt := data_fine - data_inizio + 1
    let records := (simulaAppezzamenti S env dateIdx gt appz ⟨0, 0⟩).1
    if records.isEmpty then .error .invalidConfig
    else
      let df := (ordina records).map Record.arrotonda
      if salva_csv && !esportaOk then .error .ioError
      else .ok df

/-- Bounds asserted by the spec for every generated record. -/
def Limiti (r : Record) : Prop :=
  10 ≤ r.umidita_suolo_pct ∧ r.umidita_suolo_pct ≤ 90 ∧
  0 ≤ r.precipitazioni_mm ∧
  5 ≤ r.nutrienti_n ∧ 5 ≤ r.nutrienti_p ∧ 5 ≤ r.nutrienti_k ∧
  0 ≤ r.stadio_crescita ∧ r.stadio_crescita ≤ 1 ∧
  0 ≤ r.resa_kg_ha ∧ 0 ≤ r.costo_totale_eur ∧ 0 ≤ r.ricavi_totali_eur

/-- Concrete well-formed random source used to exercise the model. -/
def streamTest : Streams := ⟨fun _ => 1/2, fun _ => 0⟩

/-- Concrete random source whose rain gate fires while the rainfall normal
draw is negative. -/
def streamPioggia : Streams := ⟨fun _ => 1/4, fun _ => -2⟩

/-- Concrete environment instance (a valid choice of the abstracted
transcendental helpers). -/
def envTest : Env := ⟨fun _ => 0, fun d => d + 1⟩

/-- Concrete test plot. -/
def appzTest : Appezzamento := ⟨ "T1", "grano", 1, "pianura"⟩

/-- One-day, one-plot concrete run of the generator. -/
def dfTest : List Record :=
  (genera_dati streamTest envTest 0 0 (some [appzTest]) false true).toOption.getD []

/-- Two-day, one-plot concrete run of the generator. -/
def dfTest2 : List Record :=
  (genera_dati streamTest envTest 0 1 (some [appzTest]) false true).toOption.getD []

/-- First record of the one-day concrete run. -/
def recTest : Record := dfTest.head!

end SmartFarm

namespace SmartFarm

lemma length_inserisci (r : Record) (l : List Record) :
    (inserisci r l).length = l.length + 1 := by
  induction l with
  | nil => rfl
  | cons x xs ih =>
    simp only [inserisci]
    split <;> simp [ih]

lemma mem_inserisci {r x : Record} {l : List Record} :
    x ∈ inserisci r l ↔ x = r ∨ x ∈ l := by
  induction l with
  | nil => simp [inserisci]
  | cons y ys ih =>
    simp only [inserisci]
    split <;> (simp only [List.mem_cons, ih]; try tauto)

lemma length_ordina (l : List Record) : (ordina l).length = l.length := by
  induction l with
  | nil => rfl
  | cons x xs ih => simp [ordina, length_inserisci, ih]

lemma mem_ordina {x : Record} {l : List Record} : x ∈ ordina l ↔ x ∈ l := by
  induction l with
  | nil => simp [ordina]
  | cons y ys ih => simp [ordina, mem_inserisci, ih]

lemma int_le_rhe (m : ℤ) (y : ℚ) (h : (m : ℚ) ≤ y) : m ≤ rhe y := by
  have hm : m ≤ ⌊y⌋ := Int.le_floor.mpr h
  simp only [rhe]
  split_ifs <;> omega

lemma rhe_le_int (m : ℤ) (y : ℚ) (h : y ≤ (m : ℚ)) : rhe y ≤ m := by
  have hf : ⌊y⌋ ≤ m := by
    have h2 := Int.floor_le_floor h
    simpa using h2
  have hfy : (⌊y⌋ : ℚ) ≤ y := Int.floor_le y
  simp only [rhe]
  split_ifs with h1 h2 h3
  · exact hf
  all_goals
  · have h4 : (⌊y⌋ : ℚ) + 1/2 ≤ y := by
      have := not_lt.mp h1
      linarith
    have h5 : ⌊y⌋ < m := by
      by_contra hc
      push_neg at hc
      have : (m : ℚ) ≤ (⌊y⌋ : ℚ) := by exact_mod_cast hc
      linarith
    omega

lemma abs_rhe_sub (y : ℚ) : |(rhe y : ℚ) - y| ≤ 1/2 := by
  have h1 : (⌊y⌋ : ℚ) ≤ y := Int.floor_le y
  have h2 : y < ⌊y⌋ + 1 := Int.lt_floor_add_one y
  simp only [rhe]
  split_ifs with ha hb hc <;>
    (rw [abs_le]; constructor <;> push_cast <;> linarith)

lemma le_round3 (z : ℤ) (x : ℚ) (h : (z : ℚ) ≤ x) : (z : ℚ) ≤ round3 x := by
  have h1 : (1000 * z : ℤ) ≤ rhe (x * 1000) := by
    apply int_le_rhe
    push_cast
    linarith
  have h2 : ((1000 * z : ℤ) : ℚ) ≤ (rhe (x * 1000) : ℚ) := by exact_mod_cast h1
  simp only [round3]
  rw [le_div_iff (by norm_num : (0 : ℚ) < 1000)]
  push_cast at h2 ⊢
  linarith

lemma round3_le (z : ℤ) (x : ℚ) (h : x ≤ (z : ℚ)) : round3 x ≤ (z : ℚ) := by
  have h1 : rhe (x * 1000) ≤ (1000 * z : ℤ) := by
    apply rhe_le_int
    push_cast
    linarith
  have h2 : ((rhe (x * 1000) : ℤ) : ℚ) ≤ ((1000 * z : ℤ) : ℚ) := by exact_mod_cast h1
  simp only [round3]
  rw [div_le_iff (by norm_num : (0 : ℚ) < 1000)]
  push_cast at h2 ⊢
  linarith

lemma abs_round3_sub (x : ℚ) : |round3 x - x| ≤ 1/2000 := by
  have h0 := abs_rhe_sub (x * 1000)
  simp only [round3]
  have he : (rhe (x * 1000) : ℚ) / 1000 - x = ((rhe (x * 1000) : ℚ) - x * 1000) / 1000 := by
    ring
  rw [he, abs_div]
  rw [show |(1000 : ℚ)| = 1000 by norm_num]
  rw [div_le_iff (by norm_num : (0 : ℚ) < 1000)]
  linarith

lemma clip_bounds {lo hi : ℚ} (h : lo ≤ hi) (x : ℚ) :
    lo ≤ clip lo hi x ∧ clip lo hi x ≤ hi := by
  constructor
  · exact le_min h (le_max_left _ _)
  · exact min_le_left _ _

lemma uniforme_bounds (S : Streams) (a b : ℚ) (c : Ctr) (hS : S.WF) (hab : a ≤ b) :
    a ≤ (uniforme S a b c).1 ∧ (uniforme S a b c).1 ≤ b := by
  obtain ⟨h0, h1⟩ := hS c.u
  simp only [uniforme]
  constructor <;> nlinarith

lemma precip_nonneg (S : Streams) (c : Ctr) : 0 ≤ (simulaPrecipitazioni S c).1 := by
  simp only [simulaPrecipitazioni]
  split
  · exact le_max_left 0 _
  · exact le_refl 0

lemma aggiornaUmidita_bounds (S : Streams) (u p : ℚ) (c : Ctr) :
    10 ≤ (aggiornaUmidita S u p c).1 ∧ (aggiornaUmidita S u p c).1 ≤ 90 := by
  simp only [aggiornaUmidita]
  split
  · exact clip_bounds (by norm_num) _
  · exact clip_bounds (by norm_num) _

lemma aggiornaNutrienti_bounds (S : Streams) (n p k : ℚ) (c : Ctr) (hS : S.WF) :
    5 ≤ (aggiornaNutrienti S n p k c).1.1 ∧
      5 ≤ (aggiornaNutrienti S n p k c).1.2.1 ∧
      5 ≤ (aggiornaNutrienti S n p k c).1.2.2 := by
  simp only [aggiornaNutrienti]
  split
  · refine ⟨?_, ?_, ?_⟩ <;>
      simp only [uniforme, casuale] <;>
      [nlinarith [le_max_left (5 : ℚ) (n - (1/20 + (3/10 - 1/20) * S.unit c.u)),
        (hS (c.u + 1 + 1 + 1 + 1)).1];
       nlinarith [le_max_left (5 : ℚ) (p - (1/50 + (3/20 - 1/50) * S.unit (c.u + 1))),
        (hS (c.u + 1 + 1 + 1 + 1 + 1)).1];
       nlinarith [le_max_left (5 : ℚ) (k - (1/20 + (1/4 - 1/20) * S.unit (c.u + 1 + 1))),
        (hS (c.u + 1 + 1 + 1 + 1 + 1 + 1)).1]]
  · exact ⟨le_max_left _ _, le_max_left _ _, le_max_left _ _⟩

lemma simulaAmbiente_bounds (S : Streams) (env : Env) (d : ℕ) (prev : Option Record)
    (c : Ctr) (hS : S.WF) :
    10 ≤ (simulaAmbiente S env d prev c).1.umidita ∧
      (simulaAmbiente S env d prev c).1.umidita ≤ 90 ∧
      0 ≤ (simulaAmbiente S env d prev c).1.precipitazioni ∧
      5 ≤ (simulaAmbiente S env d prev c).1.n ∧
      5 ≤ (simulaAmbiente S env d prev c).1.p ∧
      5 ≤ (simulaAmbiente S env d prev c).1.k := by
  cases prev with
  | none =>
    simp only [simulaAmbiente]
    refine ⟨le_trans (by norm_num) ((uniforme_bounds S 30 60 _ hS (by norm_num)).1),
      le_trans ((uniforme_bounds S 30 60 _ hS (by norm_num)).2) (by norm_num),
      precip_nonneg _ _,
      le_trans (by norm_num) ((uniforme_bounds S 40 80 _ hS (by norm_num)).1),
      le_trans (by norm_num) ((uniforme_bounds S 20 50 _ hS (by norm_num)).1),
      le_trans (by norm_num) ((uniforme_bounds S 30 70 _ hS (by norm_num)).1)⟩
  | some r =>
    simp only [simulaAmbiente]
    refine ⟨(aggiornaUmidita_bounds S _ _ _).1, (aggiornaUmidita_bounds S _ _ _).2,
      precip_nonneg _ _,
      (aggiornaNutrienti_bounds S _ _ _ _ hS).1,
      (aggiornaNutrienti_bounds S _ _ _ _ hS).2.1,
      (aggiornaNutrienti_bounds S _ _ _ _ hS).2.2⟩

lemma simulaGiorno_limiti (S : Streams) (env : Env) (a : Appezzamento) (gt i d : ℕ)
    (prev : Option Record) (c : Ctr) (hS : S.WF) :
    Limiti (simulaGiorno S env a gt i d prev c).1 := by
  obtain ⟨hu1, hu2, hpr, hn, hp, hk⟩ := simulaAmbiente_bounds S env d prev c hS
  simp only [simulaGiorno, Limiti]
  exact ⟨hu1, hu2, hpr, hn, hp, hk,
    (clip_bounds (by norm_num) _).1, (clip_bounds (by norm_num) _).2,
    le_max_left 0 _, le_max_left 0 _, le_max_left 0 _⟩

lemma mem_simulaGiorni {S : Streams} {env : Env} {a : Appezzamento} {gt : ℕ} :
    ∀ {ds : List ℕ} {i : ℕ} {prev : Option Record} {c : Ctr} {r : Record},
      r ∈ (simulaGiorni S env a gt ds i prev c).1 →
      ∃ i' d' prev' c', r = (simulaGiorno S env a gt i' d' prev' c').1 := by
  intro ds
  induction ds with
  | nil =>
    intro i prev c r h
    simp [simulaGiorni] at h
  | cons d ds ih =>
    intro i prev c r h
    simp only [simulaGiorni, List.mem_cons] at h
    rcases h with h | h
    · exact ⟨i, d, prev, c, h⟩
    · exact ih h

lemma mem_simulaAppezzamenti {S : Streams} {env : Env} {di : List ℕ} {gt : ℕ} :
    ∀ {plots : List Appezzamento} {c : Ctr} {r : Record},
      r ∈ (simulaAppezzamenti S env di gt plots c).1 →
      ∃ a i d prev c', r = (simulaGiorno S env a gt i d prev c').1 := by
  intro plots
  induction plots with
  | nil =>
    intro c r h
    simp [simulaAppezzamenti] at h
  | cons a as ih =>
    intro c r h
    simp only [simulaAppezzamenti, List.mem_append] at h
    rcases h with h | h
    · obtain ⟨i', d', prev', c', hr⟩ := mem_simulaGiorni h
      exact ⟨a, i', d', prev', c', hr⟩
    · exact ih h

lemma length_simulaGiorni (S : Streams) (env : Env) (a : Appezzamento) (gt : ℕ) :
    ∀ (ds : List ℕ) (i : ℕ) (prev : Option Record) (c : Ctr),
      (simulaGiorni S env a gt ds i prev c).1.length = ds.length := by
  intro ds
  induction ds with
  | nil => intro i prev c; rfl
  | cons d ds ih =>
    intro i prev c
    simp [simulaGiorni, ih]

lemma length_simulaAppezzamenti (S : Streams) (env : Env) (di : List ℕ) (gt : ℕ) :
    ∀ (plots : List Appezzamento) (c : Ctr),
      (simulaAppezzamenti S env di gt plots c).1.length = plots.length * di.length := by
  intro plots
  induction plots with
  | nil => intro c; simp [simulaAppezzamenti]
  | cons a as ih =>
    intro c
    simp [simulaAppezzamenti, length_simulaGiorni, ih, Nat.succ_mul, Nat.add_comm]

lemma genera_dati_ok {S : Streams} {env : Env} {s e : ℕ}
    {appz : Option (List Appezzamento)} {salva ok : Bool} {df : List Record}
    (h : genera_dati S env s e appz salva ok = .ok df) :
    df = (ordina (simulaAppezzamenti S env (dateRange s e) (e - s + 1)
            (appz.getD get_appezzamenti_default) ⟨0, 0⟩).1).map Record.arrotonda := by
  simp only [genera_dati] at h
  split at h
  · simp at h
  · split at h
    · simp at h
    · split at h
      · simp at h
      · injection h with h2
        exact h2.symm

lemma aggiornaUmidita_ctr (S : Streams) (u u' p : ℚ) (c : Ctr) :
    (aggiornaUmidita S u p c).2 = (aggiornaUmidita S u' p c).2 := by
  simp only [aggiornaUmidita]
  split_ifs <;> rfl

lemma aggiornaNutrienti_ctr (S : Streams) (n p k n' p' k' : ℚ) (c : Ctr) :
    (aggiornaNutrienti S n p k c).2 = (aggiornaNutrienti S n' p' k' c).2 := by
  simp only [aggiornaNutrienti]
  split_ifs <;> rfl

lemma simulaAmbiente_ctr (S : Streams) (env env' : Env) (d d' : ℕ)
    (prev prev' : Option Record) (c : Ctr) (h : prev.isNone = prev'.isNone) :
    (simulaAmbiente S env d prev c).2 = (simulaAmbiente S env' d' prev' c).2 := by
  cases prev with
  | none =>
    cases prev' with
    | none => rfl
    | some r' => simp at h
  | some r =>
    cases prev' with
    | none => simp at h
    | some r' =>
      simp only [simulaAmbiente]
      rw [aggiornaUmidita_ctr S r.umidita_suolo_pct r'.umidita_suolo_pct]
      exact aggiornaNutrienti_ctr S r.nutrienti_n r.nutrienti_p r.nutrienti_k
        r'.nutrienti_n r'.nutrienti_p r'.nutrienti_k _

lemma simulaGiorno_ctr (S : Streams) (env env' : Env) (a a' : Appezzamento)
    (gt gt' i i' d d' : ℕ) (prev prev' : Option Record) (c : Ctr)
    (h : prev.isNone = prev'.isNone) :
    (simulaGiorno S env a gt i d prev c).2 = (simulaGiorno S env' a' gt' i' d' prev' c).2 := by
  simp only [simulaGiorno]
  rw [simulaAmbiente_ctr S env env' d d' prev prev' c h]

lemma simulaGiorni_ctr (S : Streams) (env env' : Env) (a a' : Appezzamento)
    (gt gt' : ℕ) :
    ∀ (ds : List ℕ) (i i' : ℕ) (prev prev' : Option Record) (c : Ctr),
      prev.isNone = prev'.isNone →
      (simulaGiorni S env a gt ds i prev c).2 = (simulaGiorni S env' a' gt' ds i' prev' c).2 := by
  intro ds
  induction ds with
  | nil => intros; rfl
  | cons d ds ih =>
    intro i i' prev prev' c h
    simp only [simulaGiorni]
    rw [simulaGiorno_ctr S env env' a a' gt gt' i i' d d prev prev' c h]
    exact ih (i + 1) (i' + 1) _ _ _ rfl

lemma simulaAppezzamenti_append (S : Streams) (env : Env) (di : List ℕ) (gt : ℕ)
    (l₁ l₂ : List Appezzamento) (c : Ctr) :
    (simulaAppezzamenti S env di gt (l₁ ++ l₂) c).1
        = (simulaAppezzamenti S env di gt l₁ c).1
          ++ (simulaAppezzamenti S env di gt l₂ (simulaAppezzamenti S env di gt l₁ c).2).1 ∧
      (simulaAppezzamenti S env di gt (l₁ ++ l₂) c).2
        = (simulaAppezzamenti S env di gt l₂ (simulaAppezzamenti S env di gt l₁ c).2).2 := by
  induction l₁ generalizing c with
  | nil => simp [simulaAppezzamenti]
  | cons a as ih =>
    simp only [List.cons_append, simulaAppezzamenti, List.append_eq]
    obtain ⟨ih1, ih2⟩ := ih (simulaGiorni S env a gt di 0 none c).2
    rw [ih1, ih2, List.append_assoc]
    exact ⟨rfl, rfl⟩

lemma simulaGiorno_margine (S : Streams) (env : Env) (a : Appezzamento) (gt i d : ℕ)
    (prev : Option Record) (c : Ctr) :
    (simulaGiorno S env a gt i d prev c).1.margine_eur
      = (simulaGiorno S env a gt i d prev c).1.ricavi_totali_eur
        - (simulaGiorno S env a gt i d prev c).1.costo_totale_eur := rfl

lemma round3_sub_bound (m ric cost : ℚ) (hm : m = ric - cost) :
    |round3 m - (round3 ric - round3 cost)| ≤ 1/1000 := by
  subst hm
  have e1 := abs_round3_sub (ric - cost)
  have e2 := abs_round3_sub ric
  have e3 := abs_round3_sub cost
  rw [abs_le] at e1 e2 e3
  have hd : |round3 (ric - cost) - (round3 ric - round3 cost)| ≤ 3/2000 := by
    rw [abs_le]
    constructor <;> linarith [e1.1, e1.2, e2.1, e2.2, e3.1, e3.2]
  have hz : round3 (ric - cost) - (round3 ric - round3 cost)
      = ((rhe ((ric - cost) * 1000) - rhe (ric * 1000) + rhe (cost * 1000) : ℤ) : ℚ) / 1000 := by
    simp only [round3]
    push_cast
    ring
  rw [hz] at hd ⊢
  have hza : |(rhe ((ric - cost) * 1000) - rhe (ric * 1000) + rhe (cost * 1000) : ℤ)| ≤ 1 := by
    by_contra hc
    push_neg at hc
    have h2 : (2 : ℤ) ≤ |(rhe ((ric - cost) * 1000) - rhe (ric * 1000) + rhe (cost * 1000) : ℤ)| := hc
    have h3 : (2 : ℚ) ≤ |((rhe ((ric - cost) * 1000) - rhe (ric * 1000) + rhe (cost * 1000) : ℤ) : ℚ)| := by
      rw [← Int.cast_abs]
      exact_mod_cast h2
    rw [abs_div] at hd
    rw [show |(1000 : ℚ)| = 1000 by norm_num] at hd
    rw [div_le_iff (by norm_num : (0 : ℚ) < 1000)] at hd
    linarith
  have h4 : |((rhe ((ric - cost) * 1000) - rhe (ric * 1000) + rhe (cost * 1000) : ℤ) : ℚ)| ≤ 1 := by
    rw [← Int.cast_abs]
    exact_mod_cast hza
  rw [abs_div]
  rw [show |(1000 : ℚ)| = 1000 by norm_num]
  rw [div_le_iff (by norm_num : (0 : ℚ) < 1000)]
  linarith

/-- C1: two calls to `genera_dati` with identical inputs and the same
seed-determined random stream return identical (rounded) datasets:
the result is a function of the inputs alone. -/
theorem genera_dati_deterministico (S₁ S₂ : Streams) (env : Env) (s e : ℕ)
    (appz : Option (List Appezzamento)) (salva ok : Bool)
    (hu : ∀ n, S₁.unit n = S₂.unit n) (hg : ∀ n, S₁.gauss n = S₂.gauss n) :
    genera_dati S₁ env s e appz salva ok = genera_dati S₂ env s e appz salva ok := by
  have hS : S₁ = S₂ := by
    cases S₁
    cases S₂
    simp only [Streams.mk.injEq]
    exact ⟨funext hu, funext hg⟩
  rw [hS]

/-- Witness for C1 at a concrete input. -/
theorem genera_dati_deterministico_witness :
    genera_dati streamTest envTest 0 1 (some [appzTest]) false true
      = genera_dati streamTest envTest 0 1 (some [appzTest]) false true :=
  genera_dati_deterministico streamTest streamTest envTest 0 1 (some [appzTest])
    false true (fun _ => rfl) (fun _ => rfl)

/-- C7: whenever `end_date < start_date` the generator fails with the
invalid-range error (the IndexError raised at `date_index[-1]` on the empty
date range) and returns no dataset. -/
theorem intervallo_invalido (S : Streams) (env : Env) (s e : ℕ)
    (appz : Option (List Appezzamento)) (salva ok : Bool) (h : e < s) :
    genera_dati S env s e appz salva ok = .error .invalidRange := by
  have h0 : e + 1 - s = 0 := by omega
  simp [genera_dati, dateRange, h0]

/-- Witness for C7 at a concrete input. -/
theorem intervallo_invalido_witness :
    genera_dati streamTest envTest 1 0 none false true = .error .invalidRange :=
  intervallo_invalido streamTest envTest 1 0 none false true (by omega)

/-- C8 counterexample: with an explicitly empty plot list AND an inverted
date range, the generator fails with the invalid-range error, not the
invalid-configuration error, so the claim does not hold for every input
with an empty plot list. -/
theorem configurazione_vuota_controesempio :
    genera_dati streamTest envTest 1 0 (some []) false true = .error .invalidRange
      ∧ SimError.invalidRange ≠ SimError.invalidConfig := by
  exact ⟨rfl, by decide⟩

/-- C8 (amended): provided `start_date ≤ end_date`, an explicitly supplied
empty plot list makes `genera_dati` fail with the invalid-configuration
error (the KeyError of `sort_values` on the empty frame) and no dataset is
returned; an omitted plot list is not an error and behaves as the built-in
3-plot default configuration. -/
theorem configurazione_vuota (S : Streams) (env : Env) (s e : ℕ)
    (salva ok : Bool) (h : s ≤ e) :
    genera_dati S env s e (some []) salva ok = .error .invalidConfig
      ∧ genera_dati S env s e none salva ok
          = genera_dati S env s e (some get_appezzamenti_default) salva ok := by
  constructor
  · have h1 : (dateRange s e).isEmpty = false := by
      have hn : e + 1 - s ≠ 0 := by omega
      cases hn2 : e + 1 - s with
      | zero => exact absurd hn2 hn
      | succ k => simp [dateRange, hn2, List.range'_succ]
    simp [genera_dati, h1, simulaAppezzamenti]
  · rfl

/-- Witness for C8 (amended) at a concrete input. -/
theorem configurazione_vuota_witness :
    genera_dati streamTest envTest 0 0 (some []) false true = .error .invalidConfig
      ∧ genera_dati streamTest envTest 0 0 none false true
          = genera_dati streamTest envTest 0 0 (some get_appezzamenti_default) false true :=
  configurazione_vuota streamTest envTest 0 0 false true (by omega)

/-- C9 counterexample: when the CSV export fails, the call raises (no
`try/except` protects lines 249-255 and the `return df` is never reached),
so the caller does not obtain the computed dataset - refuting the claim
that the caller still obtains it. -/
theorem export_fallito_controesempio :
    (genera_dati streamTest envTest 0 0 none true false).toOption = none
      ∧ genera_dati streamTest envTest 0 0 none true false = .error .ioError :=
  ⟨rfl, rfl⟩

/-- C9 (amended): if the optional CSV export fails, the error propagates to
the caller and the dataset is not returned by that call; the dataset that
was computed in memory is however not corrupted by the export attempt - a
call with a succeeding export returns exactly the dataset of an export-free
call. -/
theorem export_fallito (S : Streams) (env : Env) (s e : ℕ)
    (appz : Option (List Appezzamento)) (df : List Record)
    (h : genera_dati S env s e appz false true = .ok df) :
    genera_dati S env s e appz true false = .error .ioError
      ∧ genera_dati S env s e appz true true = .ok df := by
  by_cases h1 : (dateRange s e).isEmpty
  · simp [genera_dati, h1] at h
  · by_cases h2 : ((simulaAppezzamenti S env (dateRange s e) (e - s + 1)
        (appz.getD get_appezzamenti_default) ⟨0, 0⟩).1).isEmpty
    · simp [genera_dati, h1, h2] at h
    · simp [genera_dati, h1, h2] at h ⊢
      exact h

/-- Witness for C9 (amended) at a concrete input. -/
theorem export_fallito_witness :
    genera_dati streamTest envTest 0 0 (some [appzTest]) true false = .error .ioError
      ∧ genera_dati streamTest envTest 0 0 (some [appzTest]) true true = .ok dfTest :=
  export_fallito streamTest envTest 0 0 (some [appzTest]) dfTest rfl

/-- C10: on a day-index `> 0` step, if the rain gate fires but the
`Normal(10, 8)` draw is non-positive, precipitation is exactly 0; with zero
precipitation the moisture update consumes only the decay draw (the
`Uniform(0.3, 0.6)` recharge draw is not consumed) and applies no recharge
term; and the recharge branch runs (consuming its extra draw) if and only
if precipitation is strictly positive. -/
theorem pioggia_zero_ricarica (S : Streams) (c c' : Ctr) (prev p : ℚ)
    (h1 : S.unit c.u < 3/10) (h2 : 10 + 8 * S.gauss c.g ≤ 0) :
    (simulaPrecipitazioni S c).1 = 0
      ∧ (aggiornaUmidita S prev (simulaPrecipitazioni S c).1 c').2.u = c'.u + 1
      ∧ (aggiornaUmidita S prev (simulaPrecipitazioni S c).1 c').1
          = clip 10 90 (prev + -(1/10 + (4/5 - 1/10) * S.unit c'.u))
      ∧ ((aggiornaUmidita S prev p c').2.u = c'.u + 2 ↔ 0 < p) := by
  have hp : (simulaPrecipitazioni S c).1 = 0 := by
    simp only [simulaPrecipitazioni, casuale, normale]
    rw [if_pos h1]
    simp only []
    exact max_eq_left (by linarith)
  refine ⟨hp, ?_, ?_, ?_⟩
  · rw [hp]
    simp [aggiornaUmidita, uniforme]
  · rw [hp]
    simp [aggiornaUmidita, uniforme]
  · constructor
    · intro hu
      by_contra hp0
      push_neg at hp0
      simp [aggiornaUmidita, uniforme, if_neg (not_lt.mpr hp0)] at hu
    · intro hp0
      simp [aggiornaUmidita, uniforme, if_pos hp0]

/-- Witness for C10 at a concrete input. -/
theorem pioggia_zero_ricarica_witness :
    (simulaPrecipitazioni streamPioggia ⟨0, 0⟩).1 = 0
      ∧ (aggiornaUmidita streamPioggia 50 (simulaPrecipitazioni streamPioggia ⟨0, 0⟩).1 ⟨0, 0⟩).2.u = 0 + 1
      ∧ (aggiornaUmidita streamPioggia 50 (simulaPrecipitazioni streamPioggia ⟨0, 0⟩).1 ⟨0, 0⟩).1
          = clip 10 90 (50 + -(1/10 + (4/5 - 1/10) * streamPioggia.unit 0))
      ∧ ((aggiornaUmidita streamPioggia 50 5 ⟨0, 0⟩).2.u = 0 + 2 ↔ (0 : ℚ) < 5) :=
  pioggia_zero_ricarica streamPioggia ⟨0, 0⟩ ⟨0, 0⟩ 50 5
    (by norm_num [streamPioggia]) (by norm_num [streamPioggia])

/-- C2: every record of a dataset returned by `genera_dati` (over a
well-formed random source) satisfies the spec bounds, in the final rounded
dataset: soil moisture in `[10, 90]`, precipitation `≥ 0`, nutrients `≥ 5`,
growth stage in `[0, 1]`, and yield, cost and revenue `≥ 0`. -/
theorem genera_dati_limiti (S : Streams) (env : Env) (s e : ℕ)
    (appz : Option (List Appezzamento)) (salva ok : Bool) (df : List Record)
    (hS : S.WF) (h : genera_dati S env s e appz salva ok = .ok df)
    (r : Record) (hr : r ∈ df) :
    10 ≤ r.umidita_suolo_pct ∧ r.umidita_suolo_pct ≤ 90 ∧
      0 ≤ r.precipitazioni_mm ∧
      5 ≤ r.nutrienti_n ∧ 5 ≤ r.nutrienti_p ∧ 5 ≤ r.nutrienti_k ∧
      0 ≤ r.stadio_crescita ∧ r.stadio_crescita ≤ 1 ∧
      0 ≤ r.resa_kg_ha ∧ 0 ≤ r.costo_totale_eur ∧ 0 ≤ r.ricavi_totali_eur := by
  rw [genera_dati_ok h] at hr
  obtain ⟨r₀, hr₀, hfr⟩ := List.mem_map.mp hr
  subst hfr
  rw [mem_ordina] at hr₀
  obtain ⟨a, i, d, prev, c', hr'⟩ := mem_simulaAppezzamenti hr₀
  subst hr'
  obtain ⟨b1, b2, b3, b4, b5, b6, b7, b8, b9, b10, b11⟩ :=
    simulaGiorno_limiti S env a (e - s + 1) i d prev c' hS
  simp only [Record.arrotonda]
  refine ⟨?_, ?_, ?_, ?_, ?_, ?_, ?_, ?_, ?_, ?_, ?_⟩
  · exact_mod_cast le_round3 10 _ (by exact_mod_cast b1)
  · exact_mod_cast round3_le 90 _ (by exact_mod_cast b2)
  · exact_mod_cast le_round3 0 _ (by exact_mod_cast b3)
  · exact_mod_cast le_round3 5 _ (by exact_mod_cast b4)
  · exact_mod_cast le_round3 5 _ (by exact_mod_cast b5)
  · exact_mod_cast le_round3 5 _ (by exact_mod_cast b6)
  · exact_mod_cast le_round3 0 _ (by exact_mod_cast b7)
  · exact_mod_cast round3_le 1 _ (by exact_mod_cast b8)
  · exact_mod_cast le_round3 0 _ (by exact_mod_cast b9)
  · exact_mod_cast le_round3 0 _ (by exact_mod_cast b10)
  · exact_mod_cast le_round3 0 _ (by exact_mod_cast b11)

/-- Witness for C2 at a concrete input. -/
theorem genera_dati_limiti_witness :
    10 ≤ recTest.umidita_suolo_pct ∧ recTest.umidita_suolo_pct ≤ 90 ∧
      0 ≤ recTest.precipitazioni_mm ∧
      5 ≤ recTest.nutrienti_n ∧ 5 ≤ recTest.nutrienti_p ∧ 5 ≤ recTest.nutrienti_k ∧
      0 ≤ recTest.stadio_crescita ∧ recTest.stadio_crescita ≤ 1 ∧
      0 ≤ recTest.resa_kg_ha ∧ 0 ≤ recTest.costo_totale_eur ∧
      0 ≤ recTest.ricavi_totali_eur :=
  genera_dati_limiti streamTest envTest 0 0 (some [appzTest]) false true dfTest
    (fun n => by norm_num [streamTest]) rfl recTest
    (List.head!_mem_self (by decide))

/-- C3: for a valid range and a non-empty plot list, the returned dataset
has exactly `|plots| * (days inclusive)` rows. -/
theorem genera_dati_conteggio (S : Streams) (env : Env) (s e : ℕ)
    (appz : List Appezzamento) (salva ok : Bool) (df : List Record)
    (h1 : s ≤ e) (_h2 : appz ≠ [])
    (h : genera_dati S env s e (some appz) salva ok = .ok df) :
    df.length = appz.length * (e - s + 1) := by
  rw [genera_dati_ok h]
  simp only [List.length_map, length_ordina, Option.getD_some, length_simulaAppezzamenti]
  have hlen : (dateRange s e).length = e - s + 1 := by
    simp only [dateRange, List.length_range']
    omega
  rw [hlen]

/-- Witness for C3 at a concrete input. -/
theorem genera_dati_conteggio_witness : dfTest2.length = 1 * (1 - 0 + 1) :=
  genera_dati_conteggio streamTest envTest 0 1 [appzTest] false true dfTest2
    (by omega) (by simp) rfl

/-- C4: for every record, `margine_eur` equals
`ricavi_totali_eur - costo_totale_eur` exactly before rounding, and the
three independently rounded stored fields satisfy the identity within
`0.001`. -/
theorem margine_coerente (S : Streams) (env : Env) (s e : ℕ)
    (appz : Option (List Appezzamento)) (salva ok : Bool) (df : List Record)
    (h : genera_dati S env s e appz salva ok = .ok df) (r : Record) :
    (r ∈ (simulaAppezzamenti S env (dateRange s e) (e - s + 1)
          (appz.getD get_appezzamenti_default) ⟨0, 0⟩).1 →
        r.margine_eur = r.ricavi_totali_eur - r.costo_totale_eur)
      ∧ (r ∈ df →
        |r.margine_eur - (r.ricavi_totali_eur - r.costo_totale_eur)| ≤ 1/1000) := by
  constructor
  · intro hr
    obtain ⟨a, i, d, prev, c', hr'⟩ := mem_simulaAppezzamenti hr
    rw [hr']
    exact simulaGiorno_margine S env a (e - s + 1) i d prev c'
  · intro hr
    rw [genera_dati_ok h] at hr
    obtain ⟨r₀, hr₀, hfr⟩ := List.mem_map.mp hr
    subst hfr
    rw [mem_ordina] at hr₀
    obtain ⟨a, i, d, prev, c', hr'⟩ := mem_simulaAppezzamenti hr₀
    have hm : r₀.margine_eur = r₀.ricavi_totali_eur - r₀.costo_totale_eur := by
      rw [hr']
      exact simulaGiorno_margine S env a (e - s + 1) i d prev c'
    simp only [Record.arrotonda]
    exact round3_sub_bound _ _ _ hm

/-- Witness for C4 at a concrete input. -/
theorem margine_coerente_witness :
    (recTest ∈ (simulaAppezzamenti streamTest envTest (dateRange 0 0) (0 - 0 + 1)
          ((some [appzTest]).getD get_appezzamenti_default) ⟨0, 0⟩).1 →
        recTest.margine_eur = recTest.ricavi_totali_eur - recTest.costo_totale_eur)
      ∧ (recTest ∈ dfTest →
        |recTest.margine_eur - (recTest.ricavi_totali_eur - recTest.costo_totale_eur)| ≤ 1/1000) :=
  margine_coerente streamTest envTest 0 0 (some [appzTest]) false true dfTest rfl recTest

/-- C5: each plot-day's yield per hectare equals
`max(0, growth_stage * 80 * max(0.1, 1 - moisture_penalty - nutrient_penalty)
+ Normal(0,3))`, with the penalties computed from the record's own stored
moisture and nutrient values, and `resa_totale_kg = resa_kg_ha * area`. -/
theorem resa_formula (S : Streams) (env : Env) (a : Appezzamento) (gt i d : ℕ)
    (prev : Option Record) (c : Ctr) :
    (simulaGiorno S env a gt i d prev c).1.resa_kg_ha
        = max 0 ((simulaGiorno S env a gt i d prev c).1.stadio_crescita * 80
            * max (1/10)
              (1 - penalitaUmidita (simulaGiorno S env a gt i d prev c).1.umidita_suolo_pct
                - penalitaNutrienti (((simulaGiorno S env a gt i d prev c).1.nutrienti_n
                    + (simulaGiorno S env a gt i d prev c).1.nutrienti_p
                    + (simulaGiorno S env a gt i d prev c).1.nutrienti_k) / 3))
            + 3 * S.gauss ((simulaAmbiente S env d prev c).2.g + 1))
      ∧ (simulaGiorno S env a gt i d prev c).1.resa_totale_kg
          = (simulaGiorno S env a gt i d prev c).1.resa_kg_ha * a.superficie_ha := by
  constructor
  · simp only [simulaGiorno, calcolaResaKgHa, normale, zero_add, sub_sub]
  · rfl

/-- C6: mutating one plot's descriptor (from `a` to `a'`), with the same
random source and the same fixed processing order, leaves every other
plot's generated record sequence unchanged: both runs decompose into the
same leading records (plots before it), own records, and the same trailing
records (plots after it) - no plot's records are computed from another
plot's previous day. -/
theorem isolamento_appezzamenti (S : Streams) (env : Env) (di : List ℕ) (gt : ℕ)
    (l₁ l₂ : List Appezzamento) (a a' : Appezzamento) (c : Ctr) :
    (simulaAppezzamenti S env di gt (l₁ ++ a :: l₂) c).1
        = (simulaAppezzamenti S env di gt l₁ c).1
          ++ (simulaGiorni S env a gt di 0 none (simulaAppezzamenti S env di gt l₁ c).2).1
          ++ (simulaAppezzamenti S env di gt l₂
                (simulaGiorni S env a gt di 0 none (simulaAppezzamenti S env di gt l₁ c).2).2).1
      ∧ (simulaAppezzamenti S env di gt (l₁ ++ a' :: l₂) c).1
        = (simulaAppezzamenti S env di gt l₁ c).1
          ++ (simulaGiorni S env a' gt di 0 none (simulaAppezzamenti S env di gt l₁ c).2).1
          ++ (simulaAppezzamenti S env di gt l₂
                (simulaGiorni S env a gt di 0 none (simulaAppezzamenti S env di gt l₁ c).2).2).1 := by
  obtain ⟨ha1, _⟩ := simulaAppezzamenti_append S env di gt l₁ (a :: l₂) c
  obtain ⟨hb1, _⟩ := simulaAppezzamenti_append S env di gt l₁ (a' :: l₂) c
  constructor
  · rw [ha1]
    simp only [simulaAppezzamenti]
    rw [List.append_assoc]
  · rw [hb1]
    simp only [simulaAppezzamenti]
    rw [List.append_assoc]
    rw [simulaGiorni_ctr S env env a' a gt gt di 0 0 none none
      (simulaAppezzamenti S env di gt l₁ c).2 rfl]

end SmartFarm
